import Mathlib

/-!
Verification of the Peer Discovery & Liveliness Engine (crawler.go).

Go strings are embedded as lists of characters (`GoStr`), the leveldb
key-value store as an association list from keys to raw value bytes, and
the two long-running loops (random-walk scheduler, liveliness sweeper) as
pure step functions that additionally emit a trace of store/lock events so
that keyspace and lock-discipline properties can be stated.

Functions of the repository that live outside crawler.go (`storeSeenNode`,
`getSeenNode`, `updateCount`, the `currentDate`/timeout constants) are
modelled from the specification, as marked in their doc comments; everything
else is translated directly from crawler.go.
-/

/-- Go strings, embedded as their character sequences. -/
abbrev GoStr := List Char

/-- Character data of a Lean string literal, used to write `GoStr` constants. -/
def str (s : String) : GoStr := s.data

/-- SeenNode struct (crawler.go:28-31). `NAT` is exported, `lastSeen` is an
unexported (lowercase) field — which matters for the JSON codec below. -/
structure SeenNode where
  NAT : Bool
  lastSeen : GoStr
deriving DecidableEq, Repr

/-- The Go zero value of `SeenNode`, produced by `var aux SeenNode`. -/
def zeroSeenNode : SeenNode := { NAT := false, lastSeen := [] }

/-- Bytes of `json.Marshal(SeenNode{NAT: true, ...})`. -/
def jsonTrue : GoStr := str "\x7b\"NAT\":true\x7d"

/-- Bytes of `json.Marshal(SeenNode{NAT: false, ...})`. -/
def jsonFalse : GoStr := str "\x7b\"NAT\":false\x7d"

/-- Go `encoding/json` marshalling of `SeenNode`: only the exported `NAT`
field is emitted; the unexported `lastSeen` field is skipped by the codec. -/
def marshalSeenNode (n : SeenNode) : GoStr :=
  if n.NAT then jsonTrue else jsonFalse

/-- Go `json.Unmarshal` into `SeenNode` (crawler.go:94), restricted to the
byte strings this program writes. Only the exported `NAT` field can be
populated; the unexported `lastSeen` field is left at its zero value `""`.
Input that is not a recognized encoding leaves the whole zero value (the
unmarshal error is discarded at every call site). -/
def unmarshalSeenNode (v : GoStr) : SeenNode :=
  if v = jsonTrue then { NAT := true, lastSeen := [] }
  else { NAT := false, lastSeen := [] }

/-- The leveldb store: one flat keyspace from byte-string keys to byte-string
values, embedded as an association list. -/
abbrev DB := List (GoStr × GoStr)

/-- Point lookup (first matching key). -/
def dbGet : DB → GoStr → Option GoStr
  | [], _ => none
  | (k', v') :: rest, k => if k' = k then some v' else dbGet rest k

/-- Upsert: overwrite the first occurrence of the key, or append. -/
def dbPut : DB → GoStr → GoStr → DB
  | [], k, v => [(k, v)]
  | (k', v') :: rest, k, v =>
    if k' = k then (k, v) :: rest else (k', v') :: dbPut rest k v

/-- Delete every entry stored under the key (`db.Delete`; no-op if absent). -/
def dbDelete : DB → GoStr → DB
  | [], _ => []
  | (k', v') :: rest, k =>
    if k' = k then dbDelete rest k else (k', v') :: dbDelete rest k

/-- Go `strings.Split(s, ".")` (crawler.go:73): split on the dot character;
the empty string splits to one empty field, as in Go. -/
def splitDot : GoStr → List GoStr
  | [] => [[]]
  | c :: rest =>
    match splitDot rest with
    | [] => [[]]
    | h :: t => if c = '.' then [] :: h :: t else (c :: h) :: t

/-- Value of a decimal digit character. -/
def digitVal (c : Char) : Option Nat :=
  if '0' ≤ c ∧ c ≤ '9' then some (c.toNat - '0'.toNat) else none

/-- Accumulating decimal parser over the digit characters. -/
def parseNatAux : GoStr → Nat → Option Nat
  | [], acc => some acc
  | c :: rest, acc =>
    match digitVal c with
    | some d => parseNatAux rest (acc * 10 + d)
    | none => none

/-- Parse a non-empty all-digit string as a natural number. -/
def parseNat : GoStr → Option Nat
  | [] => none
  | s => parseNatAux s 0

/-- Parse an optionally-signed decimal integer (the stored counter format). -/
def parseInt : GoStr → Option Int
  | '-' :: rest => (parseNat rest).map (fun n => -(n : Int))
  | s => (parseNat s).map (fun n => (n : Int))

/-- Decimal digits of a natural number; the first argument is recursion fuel
(any fuel larger than the digit count gives the full expansion). -/
def natDigitsAux : Nat → Nat → GoStr
  | 0, _ => []
  | f + 1, n =>
    if n < 10 then [Char.ofNat (48 + n)]
    else natDigitsAux f (n / 10) ++ [Char.ofNat (48 + n % 10)]

/-- Render an integer in the decimal integer-as-string counter format. -/
def renderInt (i : Int) : GoStr :=
  if i < 0 then '-' :: natDigitsAux i.natAbs i.natAbs
  else natDigitsAux (i.toNat + 1) i.toNat

/-- Integer value currently stored under a counter key: the parsed stored
string, or 0 when the key is absent or not a decimal integer. -/
def counterVal (db : DB) (k : GoStr) : Int :=
  match dbGet db k with
  | some v => (parseInt v).getD 0
  | none => 0

/-- Modelled from the spec: `updateCount` (defined in the repository outside
crawler.go) reads the counter's current integer value (default 0 when the
key is absent), applies +1 when `positive` and −1 otherwise, and writes the
result back at the same key (§4.1 `incrementCounter`). -/
def updateCount (db : DB) (name : GoStr) (positive : Bool) : DB :=
  dbPut db name (renderInt (counterVal db name + if positive then 1 else -1))

/-- Modelled from the spec: `storeSeenNode` (defined in the repository
outside crawler.go) serializes the record with the same JSON codec the sweep
decodes with (crawler.go:94) and upserts it at the peer key (§4.1 `put`). -/
def storeSeenNode (db : DB) (k : GoStr) (n : SeenNode) : DB :=
  dbPut db k (marshalSeenNode n)

/-- Modelled from the spec: `getSeenNode` (defined in the repository outside
crawler.go) is the point lookup (§4.1 `get`): an absent key yields the zero
`SeenNode` and `found = false`; a present value is decoded with the JSON
codec. Call sites in crawler.go discard the `found` flag. -/
def getSeenNode (db : DB) (k : GoStr) : SeenNode × Bool :=
  match dbGet db k with
  | some v => (unmarshalSeenNode v, true)
  | none => (zeroSeenNode, false)

/-- Counter-key suffix `".left"`. -/
def dotLeft : GoStr := str ".left"

/-- Counter-key suffix `".count"`. -/
def dotCount : GoStr := str ".count"

/-- The global counter key `"total.count"`. -/
def totalCount : GoStr := str "total.count"

/-- The global counter key `"total.left"`. -/
def totalLeft : GoStr := str "total.left"

/-- Store, lock and probe events emitted by the two loops, used to state
keyspace- and lock-discipline properties. -/
inductive Ev where
  | lock : Ev
  | unlock : Ev
  | probe : GoStr → Ev
  | getP : GoStr → Ev
  | putP : GoStr → SeenNode → Ev
  | del : GoStr → Ev
  | incr : GoStr → Bool → Ev
deriving DecidableEq, Repr

/-- Processing of one store entry by the liveliness sweep (crawler.go:70-123).
`connErr` is the result of `ephemeralConnection` for this key, `timestamp`
the formatted `time.Now()` value, `today` the `currentDate()` string (defined
outside crawler.go; passed as a parameter). Keys containing a dot are skipped
by the `strings.Split` guard. In the departure branch every store operation
runs between `Lock` and `Unlock`; the refresh write-back runs with no lock
held (the lock calls around it are commented out in the source). -/
def sweepStep (connErr : Option GoStr) (timestamp today : GoStr)
    (db : DB) (key value : GoStr) : DB × List Ev :=
  if (splitDot key).length = 1 then
    let node := unmarshalSeenNode value
    if !node.NAT && connErr.isSome then
      (dbDelete
         (updateCount
           (updateCount (updateCount db (today ++ dotLeft) true) totalCount false)
           totalLeft true) key,
       [Ev.probe key, Ev.lock, Ev.incr (today ++ dotLeft) true,
        Ev.incr totalCount false, Ev.incr totalLeft true, Ev.del key, Ev.unlock])
    else
      let node' := { node with lastSeen := timestamp, NAT := connErr.isSome }
      (storeSeenNode db key node', [Ev.probe key, Ev.putP key node'])
  else (db, [])

/-- One full sweep pass over a snapshot of the store's entries
(crawler.go:68-125): each entry is processed in iterator order, each against
the store state left by the previous entry. -/
def sweepPass (connErr : GoStr → Option GoStr) (timestamp today : GoStr)
    (db : DB) : List (GoStr × GoStr) → DB × List Ev
  | [] => (db, [])
  | (k, v) :: rest =>
    let r := sweepStep (connErr k) timestamp today db k v
    let r' := sweepPass connErr timestamp today r.1 rest
    (r'.1, r.2 ++ r'.2)

/-- Processing of one candidate peer by the random-walk scheduler
(crawler.go:246-309). The probe (`ephemeralConnection`, whose result is
`connErr`) runs before the mutex is taken; the lookup and all updates run
between `Lock` and `Unlock`. A candidate whose looked-up record equals the
zero `SeenNode` (`stored == aux`) is treated as never seen. Note the
departure branch passes `false` to `updateCount` for `"total.left"`
(crawler.go:297). -/
def walkStep (connErr : Option GoStr) (timestamp today : GoStr)
    (db : DB) (pid : GoStr) : DB × List Ev :=
  let aux := zeroSeenNode
  let stored := (getSeenNode db pid).1
  if stored = aux then
    let aux' : SeenNode := { NAT := connErr.isSome, lastSeen := timestamp }
    (updateCount
       (updateCount (storeSeenNode db pid aux') (today ++ dotCount) true)
       totalCount true,
     [Ev.probe pid, Ev.lock, Ev.getP pid, Ev.putP pid aux',
      Ev.incr (today ++ dotCount) true, Ev.incr totalCount true, Ev.unlock])
  else
    if !stored.NAT && connErr.isSome then
      (dbDelete
         (updateCount
           (updateCount (updateCount db (today ++ dotLeft) true) totalCount false)
           totalLeft false) pid,
       [Ev.probe pid, Ev.lock, Ev.getP pid, Ev.incr (today ++ dotLeft) true,
        Ev.incr totalCount false, Ev.incr totalLeft false, Ev.del pid, Ev.unlock])
    else
      let stored' := { stored with lastSeen := timestamp }
      (storeSeenNode db pid stored',
       [Ev.probe pid, Ev.lock, Ev.getP pid, Ev.putP pid stored', Ev.unlock])

/-- One random-walk iteration's candidate loop (crawler.go:246-310): process
the candidate peers returned by `GetClosestPeers` in order. `connErr pid` is
the `ephemeralConnection` outcome for that candidate. -/
def crawlFromKey (connErr : GoStr → Option GoStr) (timestamp today : GoStr)
    (db : DB) : List GoStr → DB × List Ev
  | [] => (db, [])
  | pid :: rest =>
    let r := walkStep (connErr pid) timestamp today db pid
    let r' := crawlFromKey connErr timestamp today r.1 rest
    (r'.1, r.2 ++ r'.2)

/-- The string Go prints for a `nil` error under `fmt.Sprintf("%v", err)`. -/
def nilErrString : GoStr := str "<nil>"

/-- The error text compared against at crawler.go:322. -/
def deadlineExceeded : GoStr := str "context deadline exceeded"

/-- `fmt.Sprintf("%v", err)` on an optional error (crawler.go:320). -/
def goErrString : Option GoStr → GoStr
  | none => nilErrString
  | some s => s

/-- ephemeralConnection (crawler.go:314-335). `conn t` is the outcome of
`host.Connect` under a timeout of `t` (`none` = success, `some s` = error
with text `s`); `t1` is the `timeEphemeralConnections` constant (defined
outside crawler.go; passed as a parameter). Returns the final error together
with the list of timeouts actually attempted. -/
def ephemeralConnection (conn : Nat → Option GoStr) (t1 : Nat) :
    Option GoStr × List Nat :=
  let e := conn t1
  if goErrString e = deadlineExceeded then
    (conn (4 * t1), [t1, 4 * t1])
  else (e, [t1])

/-- Control state of the liveliness goroutine (crawler.go:60-129):
`atSelect` is the single `select` statement, `inPass n` means the body is
executing sweep pass `n` (0-based) inside the `default` branch, `returned`
means the `case <-c.ctx.Done()` arm fired. -/
inductive LState where
  | atSelect : LState
  | inPass : Nat → LState
  | returned : LState
deriving DecidableEq, Repr

/-- One control step of the liveliness goroutine. `done t` tells whether the
cancellation signal is observable at time `t`. The `select` consults the
signal (at time 0, its only evaluation); a finished pass jumps back to the
`Alive` label via `goto`, which re-enters the pass body without re-evaluating
the `select`. -/
def livelinessStep (done : Nat → Bool) : LState → LState
  | LState.atSelect => if done 0 then LState.returned else LState.inPass 0
  | LState.inPass n => LState.inPass (n + 1)
  | LState.returned => LState.returned

/-- Control state of the liveliness goroutine after `k` steps from entry. -/
def livelinessRun (done : Nat → Bool) : Nat → LState
  | 0 => LState.atSelect
  | k + 1 => livelinessStep done (livelinessRun done k)

/-- Keyspace discipline of a single event: peer operations (probe, record
lookup/write/delete) only touch dot-free keys, counter adjustments only touch
keys containing a dot. -/
def keyDiscipline : Ev → Prop
  | Ev.probe k => ('.' : Char) ∉ k
  | Ev.getP k => ('.' : Char) ∉ k
  | Ev.putP k _ => ('.' : Char) ∉ k
  | Ev.del k => ('.' : Char) ∉ k
  | Ev.incr k _ => ('.' : Char) ∈ k
  | _ => True

/-- Events of a trace that occur while the lock is not held; the first
argument is the current lock depth. -/
def outsideLock : Nat → List Ev → List Ev
  | _, [] => []
  | d, Ev.lock :: t => outsideLock (d + 1) t
  | d + 1, Ev.unlock :: t => outsideLock d t
  | 0, Ev.unlock :: t => outsideLock 0 t
  | 0, e :: t => e :: outsideLock 0 t
  | d + 1, _ :: t => outsideLock (d + 1) t

/-! ## Store and keyspace lemmas -/

lemma dbGet_dbPut_self (db : DB) (k v : GoStr) :
    dbGet (dbPut db k v) k = some v := by
  induction db with
  | nil => simp [dbGet, dbPut]
  | cons hd tl ih =>
    obtain ⟨k', v'⟩ := hd
    by_cases h : k' = k <;> simp [dbGet, dbPut, h, ih]

lemma dbGet_dbPut_ne (db : DB) {k k' : GoStr} (h : k ≠ k') (v : GoStr) :
    dbGet (dbPut db k v) k' = dbGet db k' := by
  induction db with
  | nil => simp [dbGet, dbPut, h]
  | cons hd tl ih =>
    obtain ⟨k0, v0⟩ := hd
    by_cases h0 : k0 = k
    · subst h0
      simp [dbGet, dbPut, h]
    · simp [dbGet, dbPut, h0, ih]

lemma dbGet_dbDelete_self (db : DB) (k : GoStr) :
    dbGet (dbDelete db k) k = none := by
  induction db with
  | nil => simp [dbGet, dbDelete]
  | cons hd tl ih =>
    obtain ⟨k0, v0⟩ := hd
    by_cases h0 : k0 = k <;> simp [dbGet, dbDelete, h0, ih]

lemma dbGet_dbDelete_ne (db : DB) {k k' : GoStr} (h : k ≠ k') :
    dbGet (dbDelete db k) k' = dbGet db k' := by
  induction db with
  | nil => simp [dbDelete]
  | cons hd tl ih =>
    obtain ⟨k0, v0⟩ := hd
    by_cases h0 : k0 = k
    · subst h0
      simp [dbGet, dbDelete, h, ih]
    · simp [dbGet, dbDelete, h0, ih]

lemma dbGet_updateCount_self (db : DB) (k : GoStr) (b : Bool) :
    dbGet (updateCount db k b) k
      = some (renderInt (counterVal db k + if b then 1 else -1)) := by
  simp [updateCount, dbGet_dbPut_self]

lemma dbGet_updateCount_ne (db : DB) {k k' : GoStr} (h : k ≠ k') (b : Bool) :
    dbGet (updateCount db k b) k' = dbGet db k' := by
  simp [updateCount, dbGet_dbPut_ne db h]

lemma counterVal_eq_of_dbGet_eq {db db' : DB} {k : GoStr}
    (h : dbGet db' k = dbGet db k) : counterVal db' k = counterVal db k := by
  simp [counterVal, h]

lemma splitDot_ne_nil (s : GoStr) : splitDot s ≠ [] := by
  induction s with
  | nil => simp [splitDot]
  | cons c rest ih =>
    cases h : splitDot rest with
    | nil => exact absurd h ih
    | cons hd tl =>
      by_cases hc : c = '.' <;> simp [splitDot, h, hc]

lemma length_splitDot_eq_one {s : GoStr} :
    (splitDot s).length = 1 ↔ ('.' : Char) ∉ s := by
  induction s with
  | nil => simp [splitDot]
  | cons c rest ih =>
    cases h : splitDot rest with
    | nil => exact absurd h (splitDot_ne_nil rest)
    | cons hd tl =>
      by_cases hc : c = '.'
      · subst hc
        simp [splitDot, h]
      · have hlen : (splitDot rest).length = tl.length + 1 := by simp [h]
        simp only [splitDot, h, if_neg hc, List.length_cons, List.mem_cons]
        rw [hlen] at ih
        constructor
        · intro ht hmem
          rcases hmem with hmem | hmem
          · exact hc hmem.symm
          · exact (ih.mp ht) hmem
        · intro hmem
          exact ih.mpr (fun hr => hmem (Or.inr hr))

lemma dot_mem_append_dotLeft (a : GoStr) : ('.' : Char) ∈ a ++ dotLeft :=
  List.mem_append_right a (by decide)

lemma dot_mem_append_dotCount (a : GoStr) : ('.' : Char) ∈ a ++ dotCount :=
  List.mem_append_right a (by decide)

lemma ne_of_noDot {k c : GoStr} (hk : ('.' : Char) ∉ k)
    (hc : ('.' : Char) ∈ c) : k ≠ c := fun h => hk (h ▸ hc)

lemma append_dotLeft_ne_totalCount (a : GoStr) : a ++ dotLeft ≠ totalCount := by
  intro h
  exact absurd ⟨a, h⟩ (by decide : ¬ dotLeft <:+ totalCount)

lemma append_dotCount_ne_totalLeft (a : GoStr) : a ++ dotCount ≠ totalLeft := by
  intro h
  exact absurd ⟨a, h⟩ (by decide : ¬ dotCount <:+ totalLeft)

lemma append_dotLeft_ne_totalLeft {a : GoStr} (h : a ≠ str "total") :
    a ++ dotLeft ≠ totalLeft := by
  intro he
  have : a ++ dotLeft = str "total" ++ dotLeft := by
    rw [he]
    decide
  exact h (List.append_cancel_right this)

lemma append_dotCount_ne_totalCount {a : GoStr} (h : a ≠ str "total") :
    a ++ dotCount ≠ totalCount := by
  intro he
  have : a ++ dotCount = str "total" ++ dotCount := by
    rw [he]
    decide
  exact h (List.append_cancel_right this)

lemma append_dotCount_ne_append_dotLeft (a b : GoStr) (hab : a = b) :
    a ++ dotCount ≠ b ++ dotLeft := by
  subst hab
  intro h
  exact absurd (List.append_cancel_left h) (by decide)

lemma totalCount_ne_totalLeft : totalCount ≠ totalLeft := by decide

/-! ## Claim theorems -/

/-- C1: Sweep-path departure rule: for every stored peer record (dot-free
key) whose decoded `NAT` is `false` and whose probe during a sweep pass
fails, the sweeper increments the `"<today>.left"` counter by 1, increments
`"total.left"` by 1, decrements `"total.count"` by 1, and deletes the record
from the store. (`today ≠ "total"` reflects that `currentDate()` is a
date string.) -/
theorem C1_sweep_departure (connErr : Option GoStr) (ts today : GoStr)
    (db : DB) (key value : GoStr)
    (hkey : (splitDot key).length = 1)
    (hnat : (unmarshalSeenNode value).NAT = false)
    (herr : connErr.isSome = true)
    (htoday : today ≠ str "total") :
    dbGet (sweepStep connErr ts today db key value).1 key = none ∧
    dbGet (sweepStep connErr ts today db key value).1 (today ++ dotLeft)
      = some (renderInt (counterVal db (today ++ dotLeft) + 1)) ∧
    dbGet (sweepStep connErr ts today db key value).1 totalLeft
      = some (renderInt (counterVal db totalLeft + 1)) ∧
    dbGet (sweepStep connErr ts today db key value).1 totalCount
      = some (renderInt (counterVal db totalCount - 1)) := by
  have hnodot : ('.' : Char) ∉ key := length_splitDot_eq_one.mp hkey
  have hKL : key ≠ today ++ dotLeft := ne_of_noDot hnodot (dot_mem_append_dotLeft today)
  have hKTC : key ≠ totalCount := ne_of_noDot hnodot (by decide)
  have hKTL : key ≠ totalLeft := ne_of_noDot hnodot (by decide)
  have hLTC : today ++ dotLeft ≠ totalCount := append_dotLeft_ne_totalCount today
  have hLTL : today ++ dotLeft ≠ totalLeft := append_dotLeft_ne_totalLeft htoday
  simp only [sweepStep, hkey, hnat, herr, Bool.not_false, Bool.true_and, if_true,
    reduceIte]
  refine ⟨dbGet_dbDelete_self _ key, ?_, ?_, ?_⟩
  · rw [dbGet_dbDelete_ne _ hKL, dbGet_updateCount_ne _ hLTL.symm,
      dbGet_updateCount_ne _ hLTC.symm, dbGet_updateCount_self]
    simp
  · have h2 : dbGet (updateCount (updateCount db (today ++ dotLeft) true)
        totalCount false) totalLeft = dbGet db totalLeft := by
      rw [dbGet_updateCount_ne _ totalCount_ne_totalLeft,
        dbGet_updateCount_ne _ hLTL]
    rw [dbGet_dbDelete_ne _ hKTL, dbGet_updateCount_self,
      counterVal_eq_of_dbGet_eq h2]
    simp
  · have h2 : dbGet (updateCount db (today ++ dotLeft) true) totalCount
        = dbGet db totalCount := dbGet_updateCount_ne _ hLTC true
    rw [dbGet_dbDelete_ne _ hKTC,
      dbGet_updateCount_ne _ totalCount_ne_totalLeft.symm,
      dbGet_updateCount_self, counterVal_eq_of_dbGet_eq h2]
    simp [Int.sub_eq_add_neg]

/-- C1 witness: the end-to-end sweep scenario of §8 — store contains
`X` with `natSuspected = false`, the probe fails: `X` is deleted,
`"<today>.left"` and `"total.left"` become 1, `"total.count"` becomes −1
relative to its (absent, hence 0) start. -/
theorem C1_sweep_departure_witness :
    dbGet (sweepStep (some (str "e")) (str "1") (str "2024-01-01")
      [(str "X", jsonFalse)] (str "X") jsonFalse).1 (str "X") = none ∧
    dbGet (sweepStep (some (str "e")) (str "1") (str "2024-01-01")
      [(str "X", jsonFalse)] (str "X") jsonFalse).1 (str "2024-01-01" ++ dotLeft)
      = some (renderInt (counterVal [(str "X", jsonFalse)] (str "2024-01-01" ++ dotLeft) + 1)) ∧
    dbGet (sweepStep (some (str "e")) (str "1") (str "2024-01-01")
      [(str "X", jsonFalse)] (str "X") jsonFalse).1 totalLeft
      = some (renderInt (counterVal [(str "X", jsonFalse)] totalLeft + 1)) ∧
    dbGet (sweepStep (some (str "e")) (str "1") (str "2024-01-01")
      [(str "X", jsonFalse)] (str "X") jsonFalse).1 totalCount
      = some (renderInt (counterVal [(str "X", jsonFalse)] totalCount - 1)) :=
  C1_sweep_departure (some (str "e")) (str "1") (str "2024-01-01")
    [(str "X", jsonFalse)] (str "X") jsonFalse
    (by decide) (by decide) (by decide) (by decide)

/-- C4: NAT-suspected peers survive failed probes: in the sweep, a record
that decodes with `NAT = true` and fails its probe is only re-stored with
`lastSeen` refreshed and `NAT` recomputed from the probe outcome (still
`true`); in the walk, a looked-up record with `NAT = true` and a failed
probe is only re-stored with `lastSeen` refreshed. In both paths the record
stays present, every other key of the store is untouched (so no departure
counter changes), and the record is never deleted. -/
theorem C4_nat_suspected_survives (connErr : Option GoStr) (ts today : GoStr)
    (db dbw : DB) (key value pid : GoStr)
    (hkey : (splitDot key).length = 1)
    (hnat : (unmarshalSeenNode value).NAT = true)
    (hstored : (getSeenNode dbw pid).1.NAT = true)
    (herr : connErr.isSome = true) :
    dbGet (sweepStep connErr ts today db key value).1 key
      = some (marshalSeenNode { NAT := true, lastSeen := ts }) ∧
    (∀ k, k ≠ key → dbGet (sweepStep connErr ts today db key value).1 k = dbGet db k) ∧
    (sweepStep connErr ts today db key value).2
      = [Ev.probe key, Ev.putP key { NAT := true, lastSeen := ts }] ∧
    dbGet (walkStep connErr ts today dbw pid).1 pid
      = some (marshalSeenNode { NAT := true, lastSeen := ts }) ∧
    (∀ k, k ≠ pid → dbGet (walkStep connErr ts today dbw pid).1 k = dbGet dbw k) ∧
    (walkStep connErr ts today dbw pid).2
      = [Ev.probe pid, Ev.lock, Ev.getP pid,
         Ev.putP pid { NAT := true, lastSeen := ts }, Ev.unlock] := by
  have hzero : (getSeenNode dbw pid).1 ≠ zeroSeenNode := by
    intro h
    rw [h] at hstored
    exact absurd hstored (by decide)
  simp only [sweepStep, walkStep, hkey, hnat, hstored, herr, if_neg hzero,
    Bool.not_true, Bool.false_and, Bool.false_eq_true, if_false, reduceIte]
  refine ⟨?_, ?_, ?_, ?_, ?_, ?_⟩
  · exact dbGet_dbPut_self db key _
  · intro k hk
    exact dbGet_dbPut_ne db hk.symm _
  · trivial
  · exact dbGet_dbPut_self dbw pid _
  · intro k hk
    exact dbGet_dbPut_ne dbw hk.symm _
  · trivial

/-- C4 witness at a concrete input: a record already marked `NAT = true`
in both the sweep store and the walk store, with a failing probe. -/
theorem C4_nat_suspected_survives_witness :
    dbGet (sweepStep (some (str "e")) (str "1") (str "2024-01-01")
      [(str "X", jsonTrue)] (str "X") jsonTrue).1 (str "X")
      = some (marshalSeenNode { NAT := true, lastSeen := str "1" }) ∧
    dbGet (sweepStep (some (str "e")) (str "1") (str "2024-01-01")
      [(str "X", jsonTrue)] (str "X") jsonTrue).1 totalLeft
      = dbGet [(str "X", jsonTrue)] totalLeft ∧
    (sweepStep (some (str "e")) (str "1") (str "2024-01-01")
      [(str "X", jsonTrue)] (str "X") jsonTrue).2
      = [Ev.probe (str "X"), Ev.putP (str "X") { NAT := true, lastSeen := str "1" }] ∧
    dbGet (walkStep (some (str "e")) (str "1") (str "2024-01-01")
      [(str "Y", jsonTrue)] (str "Y")).1 (str "Y")
      = some (marshalSeenNode { NAT := true, lastSeen := str "1" }) ∧
    dbGet (walkStep (some (str "e")) (str "1") (str "2024-01-01")
      [(str "Y", jsonTrue)] (str "Y")).1 totalLeft
      = dbGet [(str "Y", jsonTrue)] totalLeft ∧
    (walkStep (some (str "e")) (str "1") (str "2024-01-01")
      [(str "Y", jsonTrue)] (str "Y")).2
      = [Ev.probe (str "Y"), Ev.lock, Ev.getP (str "Y"),
         Ev.putP (str "Y") { NAT := true, lastSeen := str "1" }, Ev.unlock] :=
  have h := C4_nat_suspected_survives (some (str "e")) (str "1") (str "2024-01-01")
    [(str "X", jsonTrue)] [(str "Y", jsonTrue)] (str "X") jsonTrue (str "Y")
    (by decide) (by decide) (by decide) (by decide)
  ⟨h.1, h.2.1 totalLeft (by decide), h.2.2.1, h.2.2.2.1,
    h.2.2.2.2.1 totalLeft (by decide), h.2.2.2.2.2⟩

/-- C5: Probe retry and classification (crawler.go:314-335): at most two
connection attempts are ever made; a second attempt happens exactly when the
first fails with the deadline-exceeded error, and it uses timeout 4×T1; any
non-timeout failure is returned immediately (classified `Unreachable`, no
retry); success at the first or at the second attempt yields a `nil` error
(`Reachable`). -/
theorem C5_probe_retry (conn : Nat → Option GoStr) (t1 : Nat) :
    (ephemeralConnection conn t1).2.length ≤ 2 ∧
    ((ephemeralConnection conn t1).2.length = 2 ↔ conn t1 = some deadlineExceeded) ∧
    (conn t1 = some deadlineExceeded →
      ephemeralConnection conn t1 = (conn (4 * t1), [t1, 4 * t1])) ∧
    (∀ s, conn t1 = some s → s ≠ deadlineExceeded →
      ephemeralConnection conn t1 = (some s, [t1])) ∧
    (conn t1 = none → ephemeralConnection conn t1 = (none, [t1])) ∧
    (conn t1 = some deadlineExceeded → conn (4 * t1) = none →
      (ephemeralConnection conn t1).1 = none) := by
  cases h : conn t1 with
  | none =>
    have hne : nilErrString ≠ deadlineExceeded := by decide
    simp [ephemeralConnection, h, goErrString, hne]
  | some s =>
    by_cases hs : s = deadlineExceeded
    · subst hs
      simp [ephemeralConnection, h, goErrString]
    · simp [ephemeralConnection, h, goErrString, hs]

/-- C5 witness: a collaborator that times out at T1 = 3 and succeeds at
T2 = 12 yields a `nil` error (`Reachable`). -/
theorem C5_probe_retry_witness :
    (ephemeralConnection
      (fun t => if t = 3 then some deadlineExceeded else none) 3).1 = none :=
  (C5_probe_retry (fun t => if t = 3 then some deadlineExceeded else none) 3).2.2.2.2.2
    (by decide) (by decide)

/-- Creation branch of the walk (crawler.go:274-287): when the looked-up
record equals the zero `SeenNode`, a fresh record with `NAT = (probe
failed)` and `lastSeen = now` is stored and `"<today>.count"` and
`"total.count"` are each incremented by 1. -/
lemma walkStep_creation (connErr : Option GoStr) (ts today : GoStr)
    (db : DB) (pid : GoStr)
    (hz : (getSeenNode db pid).1 = zeroSeenNode)
    (hdot : ('.' : Char) ∉ pid)
    (htoday : today ≠ str "total") :
    dbGet (walkStep connErr ts today db pid).1 pid
      = some (marshalSeenNode { NAT := connErr.isSome, lastSeen := ts }) ∧
    Ev.putP pid { NAT := connErr.isSome, lastSeen := ts }
      ∈ (walkStep connErr ts today db pid).2 ∧
    dbGet (walkStep connErr ts today db pid).1 (today ++ dotCount)
      = some (renderInt (counterVal db (today ++ dotCount) + 1)) ∧
    dbGet (walkStep connErr ts today db pid).1 totalCount
      = some (renderInt (counterVal db totalCount + 1)) := by
  have hPC : pid ≠ today ++ dotCount := ne_of_noDot hdot (dot_mem_append_dotCount today)
  have hPTC : pid ≠ totalCount := ne_of_noDot hdot (by decide)
  have hCTC : today ++ dotCount ≠ totalCount := append_dotCount_ne_totalCount htoday
  simp only [walkStep, hz, reduceIte]
  refine ⟨?_, ?_, ?_, ?_⟩
  · rw [dbGet_updateCount_ne _ hPTC.symm, dbGet_updateCount_ne _ hPC.symm]
    exact dbGet_dbPut_self db pid _
  · simp
  · have h2 : dbGet (storeSeenNode db pid { NAT := connErr.isSome, lastSeen := ts })
        (today ++ dotCount) = dbGet db (today ++ dotCount) :=
      dbGet_dbPut_ne db hPC _
    rw [dbGet_updateCount_ne _ hCTC.symm, dbGet_updateCount_self,
      counterVal_eq_of_dbGet_eq h2]
    simp
  · have h2 : dbGet (updateCount (storeSeenNode db pid
        { NAT := connErr.isSome, lastSeen := ts }) (today ++ dotCount) true)
        totalCount = dbGet db totalCount := by
      rw [dbGet_updateCount_ne _ hCTC]
      exact dbGet_dbPut_ne db hPTC _
    rw [dbGet_updateCount_self, counterVal_eq_of_dbGet_eq h2]
    simp

/-- C6: New-peer creation: a candidate with no stored record is stored with
`natSuspected = (probe was Unreachable)` and `lastSeen = now`, and
`"<today>.count"` and `"total.count"` are each incremented by 1; moreover,
in the §8 end-to-end scenario (empty store, candidates `[A, B]`,
probe(A) = Reachable, probe(B) = Unreachable) the walk ends with records
`natSuspected = {A: false, B: true}` and both count counters at 2. -/
theorem C6_new_peer (connErr : Option GoStr) (ts today : GoStr)
    (db : DB) (pid : GoStr)
    (habs : dbGet db pid = none)
    (hdot : ('.' : Char) ∉ pid)
    (htoday : today ≠ str "total") :
    (dbGet (walkStep connErr ts today db pid).1 pid
      = some (marshalSeenNode { NAT := connErr.isSome, lastSeen := ts }) ∧
    Ev.putP pid { NAT := connErr.isSome, lastSeen := ts }
      ∈ (walkStep connErr ts today db pid).2 ∧
    dbGet (walkStep connErr ts today db pid).1 (today ++ dotCount)
      = some (renderInt (counterVal db (today ++ dotCount) + 1)) ∧
    dbGet (walkStep connErr ts today db pid).1 totalCount
      = some (renderInt (counterVal db totalCount + 1))) ∧
    (dbGet (crawlFromKey (fun p => if p = str "B" then some (str "e") else none)
        (str "1") (str "2024-01-01") [] [str "A", str "B"]).1 (str "A")
      = some jsonFalse ∧
    dbGet (crawlFromKey (fun p => if p = str "B" then some (str "e") else none)
        (str "1") (str "2024-01-01") [] [str "A", str "B"]).1 (str "B")
      = some jsonTrue ∧
    dbGet (crawlFromKey (fun p => if p = str "B" then some (str "e") else none)
        (str "1") (str "2024-01-01") [] [str "A", str "B"]).1
        (str "2024-01-01" ++ dotCount) = some (str "2") ∧
    dbGet (crawlFromKey (fun p => if p = str "B" then some (str "e") else none)
        (str "1") (str "2024-01-01") [] [str "A", str "B"]).1 totalCount
      = some (str "2")) := by
  have hz : (getSeenNode db pid).1 = zeroSeenNode := by
    simp [getSeenNode, habs]
  exact ⟨walkStep_creation connErr ts today db pid hz hdot htoday, by decide⟩

/-- C6 witness: one never-seen candidate `P` probed unreachable on an
empty store. -/
theorem C6_new_peer_witness :
    dbGet (walkStep (some (str "e")) (str "1") (str "2024-01-01") [] (str "P")).1 (str "P")
      = some (marshalSeenNode { NAT := true, lastSeen := str "1" }) ∧
    Ev.putP (str "P") { NAT := true, lastSeen := str "1" }
      ∈ (walkStep (some (str "e")) (str "1") (str "2024-01-01") [] (str "P")).2 ∧
    dbGet (walkStep (some (str "e")) (str "1") (str "2024-01-01") [] (str "P")).1
        (str "2024-01-01" ++ dotCount)
      = some (renderInt (counterVal [] (str "2024-01-01" ++ dotCount) + 1)) ∧
    dbGet (walkStep (some (str "e")) (str "1") (str "2024-01-01") [] (str "P")).1
        totalCount
      = some (renderInt (counterVal [] totalCount + 1)) :=
  (C6_new_peer (some (str "e")) (str "1") (str "2024-01-01") [] (str "P")
    (by decide) (by decide) (by decide)).1

/-- C10: Zero-value absence test: the walk classifies a candidate as
never-seen exactly when the looked-up record equals the zero `SeenNode`
(observable as the `"<today>.count"` increment of the creation branch), so
a stored record that decodes to the zero value — `NAT = false` with empty
`lastSeen`, which every `NAT = false` record does, since `lastSeen` never
survives the codec — sends the scheduler through the creation branch again:
the record is re-stored and `"<today>.count"` and `"total.count"` are
incremented a second time for the same peer. -/
theorem C10_zero_value_rediscovery (connErr : Option GoStr) (ts today : GoStr)
    (db : DB) (pid v : GoStr)
    (hv : dbGet db pid = some v)
    (hzero : unmarshalSeenNode v = zeroSeenNode)
    (hdot : ('.' : Char) ∉ pid)
    (htoday : today ≠ str "total") :
    (∀ db' : DB, Ev.incr (today ++ dotCount) true
        ∈ (walkStep connErr ts today db' pid).2
      ↔ (getSeenNode db' pid).1 = zeroSeenNode) ∧
    dbGet (walkStep connErr ts today db pid).1 pid
      = some (marshalSeenNode { NAT := connErr.isSome, lastSeen := ts }) ∧
    dbGet (walkStep connErr ts today db pid).1 (today ++ dotCount)
      = some (renderInt (counterVal db (today ++ dotCount) + 1)) ∧
    dbGet (walkStep connErr ts today db pid).1 totalCount
      = some (renderInt (counterVal db totalCount + 1)) := by
  have hz : (getSeenNode db pid).1 = zeroSeenNode := by
    simp [getSeenNode, hv, hzero]
  have hCL : today ++ dotCount ≠ today ++ dotLeft :=
    append_dotCount_ne_append_dotLeft today today rfl
  have hcr := walkStep_creation connErr ts today db pid hz hdot htoday
  refine ⟨?_, hcr.1, hcr.2.2.1, hcr.2.2.2⟩
  intro db'
  by_cases hz' : (getSeenNode db' pid).1 = zeroSeenNode
  · simp only [walkStep, hz', reduceIte]
    simp [hz']
  · by_cases h2 : (!(getSeenNode db' pid).1.NAT && connErr.isSome) = true
    · simp only [walkStep, if_neg hz', h2, if_true]
      simp [hz', hCL]
    · simp only [walkStep, if_neg hz', Bool.not_eq_true] at h2 ⊢
      simp [h2, hz']

/-- C10 witness: store already holds `A` encoded with `NAT = false`; a walk
that sees `A` again (probe succeeding) takes the creation branch and bumps
both count counters again. -/
theorem C10_zero_value_rediscovery_witness :
    (Ev.incr (str "2024-01-01" ++ dotCount) true
      ∈ (walkStep none (str "1") (str "2024-01-01") [(str "A", jsonFalse)] (str "A")).2) ∧
    dbGet (walkStep none (str "1") (str "2024-01-01")
        [(str "A", jsonFalse)] (str "A")).1 (str "A")
      = some (marshalSeenNode { NAT := false, lastSeen := str "1" }) ∧
    dbGet (walkStep none (str "1") (str "2024-01-01")
        [(str "A", jsonFalse)] (str "A")).1 (str "2024-01-01" ++ dotCount)
      = some (renderInt (counterVal [(str "A", jsonFalse)] (str "2024-01-01" ++ dotCount) + 1)) ∧
    dbGet (walkStep none (str "1") (str "2024-01-01")
        [(str "A", jsonFalse)] (str "A")).1 totalCount
      = some (renderInt (counterVal [(str "A", jsonFalse)] totalCount + 1)) :=
  have h := C10_zero_value_rediscovery none (str "1") (str "2024-01-01")
    [(str "A", jsonFalse)] (str "A") jsonFalse (by decide) (by decide)
    (by decide) (by decide)
  ⟨(h.1 [(str "A", jsonFalse)]).mpr (by decide), h.2.1, h.2.2.1, h.2.2.2⟩

/-- C2 failing input: store contains `X` with `natSuspected = false`, the
walk probes `X` as Unreachable. Contrary to the claim, the event is NOT
treated as a departure: because the decoded record always carries an empty
`lastSeen` (the unexported field never survives the JSON codec), the record
equals the zero `SeenNode` and the walk takes the new-peer branch — it
re-stores `X` with `NAT = true`, increments `"<today>.count"` and
`"total.count"`, touches neither left-counter, and deletes nothing. (The
departure branch that the claim describes is unreachable; its own code
would moreover pass `false` to `updateCount` for `"total.left"`,
crawler.go:297, decrementing it rather than incrementing it.) -/
theorem C2_walk_departure_divergence :
    dbGet (walkStep (some (str "connection refused")) (str "7")
        (str "2024-01-01") [(str "X", jsonFalse)] (str "X")).1 (str "X")
      = some jsonTrue ∧
    dbGet (walkStep (some (str "connection refused")) (str "7")
        (str "2024-01-01") [(str "X", jsonFalse)] (str "X")).1
        (str "2024-01-01" ++ dotCount) = some (str "1") ∧
    dbGet (walkStep (some (str "connection refused")) (str "7")
        (str "2024-01-01") [(str "X", jsonFalse)] (str "X")).1 totalCount
      = some (str "1") ∧
    dbGet (walkStep (some (str "connection refused")) (str "7")
        (str "2024-01-01") [(str "X", jsonFalse)] (str "X")).1
        (str "2024-01-01" ++ dotLeft) = none ∧
    dbGet (walkStep (some (str "connection refused")) (str "7")
        (str "2024-01-01") [(str "X", jsonFalse)] (str "X")).1 totalLeft
      = none ∧
    Ev.del (str "X")
      ∉ (walkStep (some (str "connection refused")) (str "7")
        (str "2024-01-01") [(str "X", jsonFalse)] (str "X")).2 := by
  decide

/-- C3 failing input: `put` of the record `{natSuspected: false,
lastSeen: "42"}` under id `"A"` followed by `get "A"` returns the record
with `lastSeen = ""`: the unexported `lastSeen` field is skipped by the
JSON codec on marshal and cannot be set by unmarshal, so the round-trip is
not the identity on records with a non-empty `lastSeen`. -/
theorem C3_roundtrip_divergence :
    getSeenNode (storeSeenNode [] (str "A")
        { NAT := false, lastSeen := str "42" }) (str "A")
      = ({ NAT := false, lastSeen := [] }, true) ∧
    ({ NAT := false, lastSeen := [] } : SeenNode)
      ≠ { NAT := false, lastSeen := str "42" } := by
  decide

/-- C7 counterexample: with the cancellation signal observable from time 1
on (but not at time 0, the single `select` evaluation), the sweeper at
time 3 is still inside its third pass instead of having returned: the
`goto Alive` loop never re-checks the signal, so the claim that the check
happens at the top of each pass and that no further pass starts once the
signal is observable is false. -/
theorem C7_cancellation_counterexample :
    (fun t => decide (1 ≤ t)) 1 = true ∧
    livelinessRun (fun t => decide (1 ≤ t)) 3 = LState.inPass 2 := by
  decide

/-- C7 amended: the liveliness goroutine consults the cancellation signal
exactly once, before the first pass: if the signal is set at that single
check it returns without sweeping; otherwise every later step is another
sweep pass, whatever the signal does afterwards. -/
theorem C7_single_cancellation_check (done : Nat → Bool) (k : Nat) :
    (done 0 = true → livelinessRun done (k + 1) = LState.returned) ∧
    (done 0 = false → livelinessRun done (k + 1) = LState.inPass k) := by
  induction k with
  | zero =>
    constructor <;> intro h <;> simp [livelinessRun, livelinessStep, h]
  | succ n ih =>
    constructor <;> intro h
    · have hn := ih.1 h
      show livelinessStep done (livelinessRun done (n + 1)) = _
      rw [hn]
      rfl
    · have hn := ih.2 h
      show livelinessStep done (livelinessRun done (n + 1)) = _
      rw [hn]
      rfl

/-- C7 witness: with the signal never set, three steps of the goroutine
leave it inside its third pass. -/
theorem C7_single_cancellation_check_witness :
    livelinessRun (fun _ => false) 3 = LState.inPass 2 :=
  (C7_single_cancellation_check (fun _ => false) 2).2 rfl

/-- Every event of one sweep-entry processing respects the keyspace
discipline: the `strings.Split` guard admits only dot-free keys to
probe/record operations, and the counters it adjusts all contain a dot. -/
lemma sweepStep_keyDiscipline (connErr : Option GoStr) (ts today : GoStr)
    (db : DB) (key value : GoStr) :
    ∀ e ∈ (sweepStep connErr ts today db key value).2, keyDiscipline e := by
  intro e he
  by_cases hkey : (splitDot key).length = 1
  · have hnodot : ('.' : Char) ∉ key := length_splitDot_eq_one.mp hkey
    by_cases hc : (!(unmarshalSeenNode value).NAT && connErr.isSome) = true
    · simp only [sweepStep, if_pos hkey, hc, if_true, List.mem_cons,
        List.not_mem_nil, or_false] at he
      rcases he with rfl | rfl | rfl | rfl | rfl | rfl | rfl
      · exact hnodot
      · trivial
      · exact dot_mem_append_dotLeft today
      · exact (by decide : ('.' : Char) ∈ totalCount)
      · exact (by decide : ('.' : Char) ∈ totalLeft)
      · exact hnodot
      · trivial
    · rw [Bool.not_eq_true] at hc
      simp only [sweepStep, if_pos hkey, hc, Bool.false_eq_true, if_false,
        List.mem_cons, List.not_mem_nil, or_false] at he
      rcases he with rfl | rfl
      · exact hnodot
      · exact hnodot
  · simp [sweepStep, hkey] at he

/-- Every event of one walk-candidate processing respects the keyspace
discipline, provided the candidate identifier is dot-free. -/
lemma walkStep_keyDiscipline (connErr : Option GoStr) (ts today : GoStr)
    (db : DB) (pid : GoStr) (hdot : ('.' : Char) ∉ pid) :
    ∀ e ∈ (walkStep connErr ts today db pid).2, keyDiscipline e := by
  intro e he
  by_cases hz : (getSeenNode db pid).1 = zeroSeenNode
  · simp only [walkStep, if_pos hz, List.mem_cons, List.not_mem_nil,
      or_false] at he
    rcases he with rfl | rfl | rfl | rfl | rfl | rfl | rfl
    · exact hdot
    · trivial
    · exact hdot
    · exact hdot
    · exact dot_mem_append_dotCount today
    · exact (by decide : ('.' : Char) ∈ totalCount)
    · trivial
  · by_cases hc : (!(getSeenNode db pid).1.NAT && connErr.isSome) = true
    · simp only [walkStep, if_neg hz, hc, if_true, List.mem_cons,
        List.not_mem_nil, or_false] at he
      rcases he with rfl | rfl | rfl | rfl | rfl | rfl | rfl | rfl
      · exact hdot
      · trivial
      · exact hdot
      · exact dot_mem_append_dotLeft today
      · exact (by decide : ('.' : Char) ∈ totalCount)
      · exact (by decide : ('.' : Char) ∈ totalLeft)
      · exact hdot
      · trivial
    · rw [Bool.not_eq_true] at hc
      simp only [walkStep, if_neg hz, hc, Bool.false_eq_true, if_false,
        List.mem_cons, List.not_mem_nil, or_false] at he
      rcases he with rfl | rfl | rfl | rfl | rfl
      · exact hdot
      · trivial
      · exact hdot
      · exact hdot
      · trivial

/-- Keyspace discipline over a whole sweep pass. -/
lemma sweepPass_keyDiscipline (connErr : GoStr → Option GoStr)
    (ts today : GoStr) (snapshot : List (GoStr × GoStr)) :
    ∀ db : DB, ∀ e ∈ (sweepPass connErr ts today db snapshot).2,
      keyDiscipline e := by
  induction snapshot with
  | nil =>
    intro db e he
    simp [sweepPass] at he
  | cons hd tl ih =>
    intro db e he
    obtain ⟨k, v⟩ := hd
    simp only [sweepPass, List.mem_append] at he
    rcases he with h | h
    · exact sweepStep_keyDiscipline (connErr k) ts today db k v e h
    · exact ih _ e h

/-- Keyspace discipline over a whole walk iteration. -/
lemma crawlFromKey_keyDiscipline (connErr : GoStr → Option GoStr)
    (ts today : GoStr) (peers : List GoStr)
    (hpeers : ∀ p ∈ peers, ('.' : Char) ∉ p) :
    ∀ db : DB, ∀ e ∈ (crawlFromKey connErr ts today db peers).2,
      keyDiscipline e := by
  induction peers with
  | nil =>
    intro db e he
    simp [crawlFromKey] at he
  | cons hd tl ih =>
    intro db e he
    simp only [crawlFromKey, List.mem_append] at he
    rcases he with h | h
    · exact walkStep_keyDiscipline (connErr hd) ts today db hd
        (hpeers hd (List.mem_cons_self hd tl)) e h
    · exact ih (fun p hp => hpeers p (List.mem_cons_of_mem hd hp)) _ e h

/-- C8: Keyspace discipline: in both loops every probe, record lookup,
record write and record delete targets a dot-free key, and every counter
adjustment targets a key containing a dot — so counter entries are never
probed, never deleted, and never overwritten with a peer record by either
the sweep or the walk (the walk under the spec's invariant that candidate
peer identifiers are dot-free). -/
theorem C8_keyspace_discipline (connErr : GoStr → Option GoStr)
    (ts today : GoStr) (db dbw : DB) (snapshot : List (GoStr × GoStr))
    (peers : List GoStr)
    (hpeers : ∀ p ∈ peers, ('.' : Char) ∉ p) :
    (∀ e ∈ (sweepPass connErr ts today db snapshot).2, keyDiscipline e) ∧
    (∀ e ∈ (crawlFromKey connErr ts today dbw peers).2, keyDiscipline e) :=
  ⟨sweepPass_keyDiscipline connErr ts today snapshot db,
   crawlFromKey_keyDiscipline connErr ts today peers hpeers dbw⟩

/-- C8 witness: concrete pass over a store holding the peer record `X` and
the counter `total.count`, walk over candidate `A`: the probes of the pass
and of the walk hit only the dot-free keys. -/
theorem C8_keyspace_discipline_witness :
    keyDiscipline (Ev.probe (str "X")) ∧ keyDiscipline (Ev.probe (str "A")) :=
  have h := C8_keyspace_discipline (fun _ => none) (str "1") (str "2024-01-01")
    [(str "X", jsonFalse)] [] [(str "X", jsonFalse), (totalCount, str "3")]
    [str "A"] (by decide)
  ⟨h.1 (Ev.probe (str "X")) (by decide), h.2 (Ev.probe (str "A")) (by decide)⟩

/-- C9 counterexample: the sweep's refresh write-back runs with the lock
not held — with the record `X` stored as `NAT = true` and a failing probe,
the whole trace (the probe and the record re-store) happens at lock depth 0,
refuting the claim that every read-modify-write runs inside a critical
section. -/
theorem C9_lock_counterexample :
    outsideLock 0 (sweepStep (some (str "e")) (str "1") (str "2024-01-01")
        [] (str "X") jsonTrue).2
      = [Ev.probe (str "X"),
         Ev.putP (str "X") { NAT := true, lastSeen := str "1" }] := by
  decide

/-- C9 amended: in the walk, everything after the probe — the lookup and
all record/counter updates — runs under the lock, the probe alone runs
before it; in the sweep, all counter increments and the departure delete
run under the lock, while the probe and the refresh write-back run outside
it. -/
theorem C9_lock_discipline (connErr : Option GoStr) (ts today : GoStr)
    (db dbw : DB) (key value pid : GoStr) :
    outsideLock 0 (walkStep connErr ts today dbw pid).2 = [Ev.probe pid] ∧
    (∀ e ∈ outsideLock 0 (sweepStep connErr ts today db key value).2,
      (∀ k b, e ≠ Ev.incr k b) ∧ (∀ k, e ≠ Ev.del k)) := by
  constructor
  · by_cases hz : (getSeenNode dbw pid).1 = zeroSeenNode
    · simp [walkStep, if_pos hz, outsideLock]
    · by_cases hc : (!(getSeenNode dbw pid).1.NAT && connErr.isSome) = true
      · simp [walkStep, if_neg hz, hc, outsideLock]
      · rw [Bool.not_eq_true] at hc
        simp [walkStep, if_neg hz, hc, outsideLock]
  · intro e he
    by_cases hkey : (splitDot key).length = 1
    · by_cases hc : (!(unmarshalSeenNode value).NAT && connErr.isSome) = true
      · simp only [sweepStep, if_pos hkey, hc, if_true, outsideLock] at he
        simp only [List.mem_singleton] at he
        subst he
        exact ⟨fun k b => by simp, fun k => by simp⟩
      · rw [Bool.not_eq_true] at hc
        simp only [sweepStep, if_pos hkey, hc, Bool.false_eq_true, if_false,
          outsideLock, List.mem_cons, List.not_mem_nil, or_false] at he
        rcases he with rfl | rfl
        · exact ⟨fun k b => by simp, fun k => by simp⟩
        · exact ⟨fun k b => by simp, fun k => by simp⟩
    · simp [sweepStep, hkey, outsideLock] at he

/-- C9 witness: concrete walk over candidate `P` (only the probe outside
the lock) and concrete sweep entry `X` (its outside-lock events are neither
counter increments nor deletes). -/
theorem C9_lock_discipline_witness :
    outsideLock 0 (walkStep none (str "1") (str "2024-01-01") [] (str "P")).2
      = [Ev.probe (str "P")] ∧
    Ev.probe (str "X") ≠ Ev.incr totalLeft false ∧
    Ev.probe (str "X") ≠ Ev.del (str "X") :=
  have h := C9_lock_discipline none (str "1") (str "2024-01-01")
    [] [] (str "X") jsonTrue (str "P")
  ⟨h.1, (h.2 (Ev.probe (str "X")) (by decide)).1 totalLeft false,
    (h.2 (Ev.probe (str "X")) (by decide)).2 (str "X")⟩
